import Mathlib

/-!
Shallow embedding of the EA DOGM162 LCD driver (Software/drivers/LCD_DOGM162.c).

The driver talks to the LCD controller over three control lines (E, RW, RS),
an 8-bit data bus, and a power-enable pin.  We model every electrical action
as an event in a trace (`Ev`), and every driver routine as a pure function
that returns its C result together with the trace of events it performs.

The only input the hardware feeds back to the driver is the status byte read
from the bus while polling the busy flag.  We model it as an environment
`env : Nat → Nat`, where `env i` is the value on the data bus at the i-th bus
read; every routine threads the read counter `t`.

The process-wide flag `l_flgLCD_IsOn` is passed in as a `Bool` argument
(`flg`) and flag assignments are recorded in the trace (`Ev.setFlag`) so that
the ordering of the flag change relative to electrical actions is observable.
C strings and buffers are modelled as `List Nat` of byte values; `strlen`
is the length of the prefix before the first 0 byte.
-/

/-- One observable action of the driver: a control-line change, a bus-mode
change, a bus transfer, a delay, a display-flag assignment, or a failed
EFM_ASSERT check (contract violation signal). -/
inductive Ev where
  /-- GPIO_PinModeSet for control line E (drives the given level) -/
  | cfgCtrlE  (lvl : Bool)
  /-- GPIO_PinModeSet for control line RW -/
  | cfgCtrlRW (lvl : Bool)
  /-- GPIO_PinModeSet for control line RS -/
  | cfgCtrlRS (lvl : Bool)
  /-- GPIO DOUTCLR on the data-bus bits -/
  | doutClr
  /-- GPIO_PinModeSet for the power-enable pin -/
  | cfgPower  (lvl : Bool)
  /-- msDelay(ms) -/
  | msDelay   (ms : Nat)
  /-- SET_LCD_POWER_PIN(level) -/
  | powerPin  (lvl : Bool)
  /-- SET_LCD_DATA_MODE_IN -/
  | dataModeIn
  /-- SET_LCD_DATA_MODE_OUT -/
  | dataModeOut
  /-- READ_LCD_DATA() -/
  | readBus
  /-- WRITE_LCD_DATA(v) -/
  | writeBus  (v : Nat)
  /-- SET_LCD_CTRL_PIN_E(level) -/
  | e  (lvl : Bool)
  /-- SET_LCD_CTRL_PIN_RW(level) -/
  | rw (lvl : Bool)
  /-- SET_LCD_CTRL_PIN_RS(level) -/
  | rs (lvl : Bool)
  /-- DelayTick() -/
  | tick
  /-- assignment to l_flgLCD_IsOn -/
  | setFlag (b : Bool)
  /-- EFM_ASSERT with a false condition -/
  | assertFail
deriving DecidableEq, Repr

/-- Modelled from the spec: RTC_COUNTS_PER_SEC comes from AlarmClock.h, which
is not part of the examined sources.  The spec states the busy-poll timeout is
a fixed real-time interval of about 1 ms expressed in ticks; the EFM32 RTC
runs at 32768 counts per second. -/
def RTC_COUNTS_PER_SEC : Nat := 32768

/-- Timeout for WaitCtrlReady() is 1ms (LCD_WAIT_READY_TIMEOUT). -/
def LCD_WAIT_READY_TIMEOUT : Nat := RTC_COUNTS_PER_SEC / 1000

/-- Modelled from the spec: LCD_DIMENSION_X comes from LCD_DOGM162.h, which is
not part of the examined sources.  The spec describes a 16-column display. -/
def LCD_DIMENSION_X : Nat := 16

/-- Modelled from the spec: LCD_DIMENSION_Y comes from LCD_DOGM162.h, which is
not part of the examined sources.  The spec describes a 2-row display. -/
def LCD_DIMENSION_Y : Nat := 2

/-- Modelled from the spec: EOS comes from the project headers (not among the
examined sources); it is the C string terminator, byte 0. -/
def EOS : Nat := 0

/-- LCD Contrast value (l_Contrast); statically 25, never reassigned. -/
def l_Contrast : Nat := 25

/-! Command constants for the LCD controller (subset used by the code). -/

def LCD_CMD_CLEAR_DISPLAY : Nat := 0x01
def LCD_CMD_ENTRY_MODE_ID : Nat := 0x06
def LCD_CMD_DISPLAY_ON_D : Nat := 0x0C
def LCD_CMD_FCT_SET_DL : Nat := 0x30
def LCD_CMD_FCT_SET_N : Nat := 0x28
def LCD_CMD_FCT_SET_IS1 : Nat := 0x21
def LCD_CMD_FCT_SET_IS0 : Nat := 0x20
def LCD_CMD_SET_DDRAM_ADDR : Nat := 0x80
def LCD_CMD_IS0_SET_CGRAM : Nat := 0x40
def LCD_CMD_IS1_BIAS_SET : Nat := 0x14
def LCD_CMD_IS1_IBC_BON : Nat := 0x54
def LCD_CMD_IS1_CONTR : Nat := 0x70
def LCD_CMD_IS1_FOLLOW_FON : Nat := 0x68
def LCD_CMD_IS1_FOLLOW_RAB2 : Nat := 0x64
def LCD_CMD_IS1_FOLLOW_RAB0 : Nat := 0x61

/-- Custom characters l_CustChar: 8 glyphs of 8 row bytes each. -/
def l_CustChar : List (List Nat) :=
  [ [0x00, 0x00, 0x00, 0x00, 0x00, 0x00, 0x00, 0x00],   -- 0: blank
    [0x00, 0x00, 0x00, 0x00, 0x00, 0x00, 0x00, 0x00],   -- 1: blank
    [0x00, 0x00, 0x00, 0x00, 0x00, 0x00, 0x00, 0x00],   -- 2: blank
    [0x00, 0x00, 0x00, 0x00, 0x00, 0x00, 0x00, 0x00],   -- 3: blank
    [0x00, 0x00, 0x00, 0x00, 0x00, 0x00, 0x00, 0x00],   -- 4: blank
    [0x04, 0x0E, 0x15, 0x04, 0x04, 0x04, 0x04, 0x00],   -- 5: UP Arrow
    [0x04, 0x04, 0x04, 0x04, 0x15, 0x0E, 0x04, 0x00],   -- 6: DOWN Arrow
    [0x00, 0x04, 0x02, 0x1F, 0x02, 0x04, 0x00, 0x00] ]  -- 7: RIGHT Arrow

/-- BusyRead(): switch bus to input, assert read+register-select, pulse E
around a tick and a bus sample, return the status byte (uint8_t). -/
def BusyRead (env : Nat → Nat) (t : Nat) : Nat × Nat × List Ev :=
  (env t % 256, t + 1,
   [Ev.dataModeIn, Ev.rw true, Ev.rs false, Ev.e true, Ev.tick, Ev.readBus,
    Ev.e false])

/-- Polling loop of WaitCtrlReady(): up to `fuel` polls; a poll whose status
has bit 7 clear returns false (ready) at once, otherwise delay one tick and
retry; exhausted fuel returns true (timeout). -/
def waitLoop (env : Nat → Nat) (t : Nat) : Nat → Bool × Nat × List Ev
  | 0 => (true, t, [])
  | fuel + 1 =>
    let b := BusyRead env t
    if b.1 &&& (1 <<< 7) = 0 then
      (false, b.2.1, b.2.2)
    else
      let r := waitLoop env b.2.1 fuel
      (r.1, r.2.1, b.2.2 ++ Ev.tick :: r.2.2)

/-- WaitCtrlReady(): poll the busy flag at most LCD_WAIT_READY_TIMEOUT times.
Returns false if the controller is ready, true on timeout. -/
def WaitCtrlReady (env : Nat → Nat) (t : Nat) : Bool × Nat × List Ev :=
  waitLoop env t LCD_WAIT_READY_TIMEOUT

/-- CmdWrite(cmd): wait for ready (abort silently on timeout), then switch the
bus to output, select write+register, put the command byte on the bus and
pulse E to latch it. -/
def CmdWrite (env : Nat → Nat) (t : Nat) (cmd : Nat) : Nat × List Ev :=
  let w := WaitCtrlReady env t
  if w.1 then
    (w.2.1, w.2.2)
  else
    (w.2.1, w.2.2 ++
      [Ev.dataModeOut, Ev.rw false, Ev.rs false, Ev.writeBus (cmd % 256),
       Ev.e true, Ev.tick, Ev.e false])

/-- DataWrite(data): like CmdWrite but with RS selecting the data register. -/
def DataWrite (env : Nat → Nat) (t : Nat) (data : Nat) : Nat × List Ev :=
  let w := WaitCtrlReady env t
  if w.1 then
    (w.2.1, w.2.2)
  else
    (w.2.1, w.2.2 ++
      [Ev.dataModeOut, Ev.rw false, Ev.rs true, Ev.writeBus (data % 256),
       Ev.e true, Ev.tick, Ev.e false])

/-- Writes of the bytes of one glyph, in row order, via DataWrite. -/
def writeGlyphData (env : Nat → Nat) (t : Nat) : List Nat → Nat × List Ev
  | [] => (t, [])
  | b :: bs =>
    let d := DataWrite env t b
    let r := writeGlyphData env d.1 bs
    (r.1, d.2 ++ r.2)

/-- Glyph upload loop of LCD_PowerOn: for each remaining slot (starting at
`ch`, `fuel` slots left) issue the CGRAM address-select command for the slot
and then write its 8 row bytes. -/
def loadGlyphs (env : Nat → Nat) (t ch : Nat) : Nat → Nat × List Ev
  | 0 => (t, [])
  | fuel + 1 =>
    let c := CmdWrite env t (LCD_CMD_IS0_SET_CGRAM ||| (ch <<< 3))
    let d := writeGlyphData env c.1 (l_CustChar.getD ch [])
    let r := loadGlyphs env d.1 (ch + 1) fuel
    (r.1, c.2 ++ d.2 ++ r.2)

/-- LCD_PowerOn(): configure control lines as outputs (driven low), zero the
data bus, switch the power pin on, wait 100 ms, run the fixed controller
setup sequence (instruction table 1 programming, back to table 0, glyph
upload, display on, clear, entry mode), then set the on-flag. -/
def LCD_PowerOn (env : Nat → Nat) (t : Nat) : Bool × Nat × List Ev :=
  let pre : List Ev :=
    [Ev.cfgCtrlE false, Ev.cfgCtrlRW false, Ev.cfgCtrlRS false,
     Ev.doutClr, Ev.cfgPower true, Ev.msDelay 100]
  let c1 := CmdWrite env t (LCD_CMD_FCT_SET_DL ||| LCD_CMD_FCT_SET_N ||| LCD_CMD_FCT_SET_IS1)
  let c2 := CmdWrite env c1.1 LCD_CMD_IS1_BIAS_SET
  let c3 := CmdWrite env c2.1 (LCD_CMD_IS1_IBC_BON ||| (l_Contrast >>> 4))
  let c4 := CmdWrite env c3.1 (LCD_CMD_IS1_FOLLOW_FON ||| LCD_CMD_IS1_FOLLOW_RAB2 ||| LCD_CMD_IS1_FOLLOW_RAB0)
  let c5 := CmdWrite env c4.1 (LCD_CMD_IS1_CONTR ||| (l_Contrast &&& 0x0F))
  let c6 := CmdWrite env c5.1 (LCD_CMD_FCT_SET_DL ||| LCD_CMD_FCT_SET_N ||| LCD_CMD_FCT_SET_IS0)
  let g := loadGlyphs env c6.1 0 8
  let c7 := CmdWrite env g.1 LCD_CMD_DISPLAY_ON_D
  let c8 := CmdWrite env c7.1 LCD_CMD_CLEAR_DISPLAY
  let c9 := CmdWrite env c8.1 LCD_CMD_ENTRY_MODE_ID
  (true, c9.1,
   pre ++ c1.2 ++ c2.2 ++ c3.2 ++ c4.2 ++ c5.2 ++ c6.2 ++ g.2 ++ c7.2 ++
   c8.2 ++ c9.2 ++ [Ev.setFlag true])

/-- LCD_PowerOff(): clear the on-flag, switch the power pin off, then drive
the remaining signals low (bus to output, RW and RS low, data bus zero,
E low), in exactly this order. -/
def LCD_PowerOff : Bool × List Ev :=
  (false,
   [Ev.setFlag false, Ev.powerPin false, Ev.dataModeOut, Ev.rw false,
    Ev.rs false, Ev.writeBus 0x00, Ev.e false])

/-- C strlen on a byte-list model of memory: length of the prefix before the
first 0 byte. -/
def strlen (s : List Nat) : Nat := (s.takeWhile (fun c => c != 0)).length

/-- The characters of a C string held in a buffer: the prefix before the
first 0 byte. -/
def strChars (s : List Nat) : List Nat := s.takeWhile (fun c => c != 0)

/-- The padding loop of LCD_WriteLine: `while (len < LCD_DIMENSION_X)
buffer[len++] = SPACE`, with `fuel` remaining iterations (byte 32 is space). -/
def padFrom (buf : List Nat) (len : Nat) : Nat → List Nat
  | 0 => buf
  | fuel + 1 => padFrom (buf.set len 32) (len + 1) fuel

/-- The in-place buffer mutation performed by LCD_WriteLine before any
transfer: truncate at width w by storing EOS at index w if the string is
longer than w, pad with spaces up to w, and store EOS at index w. -/
def writeLineBuf (w : Nat) (buf : List Nat) : List Nat :=
  let len := strlen buf
  let b1 := if w < len then buf.set w EOS else buf
  (padFrom b1 len (w - len)).set w EOS

/-- LCD_Putc(c): write the character to the LCD data bus if the display is
on; no-op otherwise. -/
def LCD_Putc (env : Nat → Nat) (t : Nat) (flg : Bool) (c : Nat) :
    Nat × List Ev :=
  if flg then DataWrite env t c else (t, [])

/-- LCD_Puts(pStr): put each character before the terminating 0 byte, in
order, via LCD_Putc. -/
def LCD_Puts (env : Nat → Nat) (t : Nat) (flg : Bool) :
    List Nat → Nat × List Ev
  | [] => (t, [])
  | c :: cs =>
    if c = EOS then (t, [])
    else
      let p := LCD_Putc env t flg c
      let r := LCD_Puts env p.1 flg cs
      (r.1, p.2 ++ r.2)

/-- LCD_GotoXY(x, y): immediately return if the display is off; EFM_ASSERT
the coordinate ranges (signal only, execution continues); compute the DDRAM
address y*0x40+x (as uint8_t) and issue the set-address command.  The
uint8_t parameters are modelled by reducing the arguments mod 256. -/
def LCD_GotoXY (env : Nat → Nat) (t : Nat) (flg : Bool) (x y : Nat) :
    Nat × List Ev :=
  if flg then
    let xv := x % 256
    let yv := y % 256
    let a : List Ev :=
      if xv < LCD_DIMENSION_X ∧ yv < LCD_DIMENSION_Y then [] else [Ev.assertFail]
    let addr := (yv * 0x40 + xv) % 256
    let c := CmdWrite env t (LCD_CMD_SET_DDRAM_ADDR ||| addr)
    (c.1, a ++ c.2)
  else (t, [])

/-- LCD_WriteLine(lineNum, buffer): EFM_ASSERT and return if lineNum is not
1 or 2; truncate or space-pad the callers buffer in place to exactly
LCD_DIMENSION_X characters plus terminator; set the cursor to the start of
the line; output the buffer.  Returns the mutated buffer, the read counter
and the trace. -/
def LCD_WriteLine (env : Nat → Nat) (t : Nat) (flg : Bool) (lineNum : Int)
    (buf : List Nat) : List Nat × Nat × List Ev :=
  if lineNum < 1 ∨ 2 < lineNum then (buf, t, [Ev.assertFail])
  else
    let buf2 := writeLineBuf LCD_DIMENSION_X buf
    let g := LCD_GotoXY env t flg 0 (lineNum - 1).toNat
    let p := LCD_Puts env g.1 flg buf2
    (buf2, p.1, g.2 ++ p.2)

/-- LCD_vPrintf(lineNum, frmt, args): immediately return if the display is
off; EFM_ASSERT and return if the format string is longer than
sizeof(buffer) - 10 = 30; otherwise format into the 40-byte buffer (the
external vsprintf result is the oracle argument `formatted`) and write it
via LCD_WriteLine.  The first component is `none` exactly on the two early
returns, i.e. when neither formatting nor writing happens. -/
def LCD_vPrintf (env : Nat → Nat) (t : Nat) (flg : Bool) (lineNum : Int)
    (frmt : List Nat) (formatted : List Nat) :
    Option (List Nat) × Nat × List Ev :=
  if flg then
    if 40 - 10 < strlen frmt then (none, t, [Ev.assertFail])
    else
      let w := LCD_WriteLine env t flg lineNum formatted
      (some w.1, w.2.1, w.2.2)
  else (none, t, [])

/-- LCD_Printf(lineNum, frmt, ...): builds a va_list and delegates to
LCD_vPrintf. -/
def LCD_Printf (env : Nat → Nat) (t : Nat) (flg : Bool) (lineNum : Int)
    (frmt : List Nat) (formatted : List Nat) :
    Option (List Nat) × Nat × List Ev :=
  LCD_vPrintf env t flg lineNum frmt formatted

/-- LCD_Init(): powers the LCD module on and runs the controller setup. -/
def LCD_Init (env : Nat → Nat) (t : Nat) : Bool × Nat × List Ev :=
  LCD_PowerOn env t

/-! ### Trace observers -/

/-- Level of the RS control line after a trace, starting from level r. -/
def rsAfter : Bool → List Ev → Bool
  | r, [] => r
  | _, Ev.rs b :: tr => rsAfter b tr
  | _, Ev.cfgCtrlRS b :: tr => rsAfter b tr
  | r, _ :: tr => rsAfter r tr

/-- Level of the E control line after a trace, starting from level b. -/
def lastE : Bool → List Ev → Bool
  | b, [] => b
  | _, Ev.e l :: tr => lastE l tr
  | _, Ev.cfgCtrlE l :: tr => lastE l tr
  | b, _ :: tr => lastE b tr

/-- The bus writes of a trace, each tagged with the RS level at the moment of
the write (false = command register, true = data register); `r` is the RS
level when the trace starts. -/
def wireWrites : Bool → List Ev → List (Bool × Nat)
  | _, Ev.rs b :: tr => wireWrites b tr
  | _, Ev.cfgCtrlRS b :: tr => wireWrites b tr
  | r, Ev.writeBus v :: tr => (r, v) :: wireWrites r tr
  | r, _ :: tr => wireWrites r tr
  | _, [] => []

/-- The data bytes a trace puts on the wire: bus writes performed with RS
high, assuming RS starts low. -/
def dataBytes (tr : List Ev) : List Nat :=
  (wireWrites false tr).filterMap (fun p => if p.1 then some p.2 else none)

/-- Number of bus writes in a trace. -/
def countWriteBus (tr : List Ev) : Nat :=
  tr.countP (fun ev => match ev with | Ev.writeBus _ => true | _ => false)

/-- Number of bus reads in a trace. -/
def countReadBus (tr : List Ev) : Nat := tr.count Ev.readBus

/-- The trace of a single busy-flag poll. -/
def busyReadTr : List Ev :=
  [Ev.dataModeIn, Ev.rw true, Ev.rs false, Ev.e true, Ev.tick, Ev.readBus,
   Ev.e false]

/-- The tail of a successful CmdWrite after the poll. -/
def cmdProg (cmd : Nat) : List Ev :=
  [Ev.dataModeOut, Ev.rw false, Ev.rs false, Ev.writeBus (cmd % 256),
   Ev.e true, Ev.tick, Ev.e false]

/-- The tail of a successful DataWrite after the poll. -/
def dataProg (data : Nat) : List Ev :=
  [Ev.dataModeOut, Ev.rw false, Ev.rs true, Ev.writeBus (data % 256),
   Ev.e true, Ev.tick, Ev.e false]

/-- The trace of `f` consecutive unsuccessful polls. -/
def busyLoopTr : Nat → List Ev
  | 0 => []
  | f + 1 => busyReadTr ++ Ev.tick :: busyLoopTr f

/-- Trace of the data writes of one glyph row list under a ready controller. -/
def glyphRowTr : List Nat → List Ev
  | [] => []
  | b :: bs => (busyReadTr ++ dataProg b) ++ glyphRowTr bs

/-- Trace of the glyph-upload loop under a ready controller. -/
def glyphSlotsTr : Nat → Nat → List Ev
  | _, 0 => []
  | ch, f + 1 =>
    (busyReadTr ++ cmdProg (LCD_CMD_IS0_SET_CGRAM ||| (ch <<< 3))) ++
    glyphRowTr (l_CustChar.getD ch []) ++ glyphSlotsTr (ch + 1) f

/-! ### Observer lemmas -/

theorem rsAfter_append (t1 t2 : List Ev) : ∀ r,
    rsAfter r (t1 ++ t2) = rsAfter (rsAfter r t1) t2 := by
  induction t1 with
  | nil => intro r; rfl
  | cons ev tr ih => intro r; cases ev <;> simp [rsAfter, ih]

theorem lastE_append (t1 t2 : List Ev) : ∀ b,
    lastE b (t1 ++ t2) = lastE (lastE b t1) t2 := by
  induction t1 with
  | nil => intro b; rfl
  | cons ev tr ih => intro b; cases ev <;> simp [lastE, ih]

theorem wireWrites_append (t1 t2 : List Ev) : ∀ r,
    wireWrites r (t1 ++ t2) = wireWrites r t1 ++ wireWrites (rsAfter r t1) t2 := by
  induction t1 with
  | nil => intro r; rfl
  | cons ev tr ih => intro r; cases ev <;> simp [wireWrites, rsAfter, ih]

/-! ### Handshake lemmas -/

theorem waitLoop_ready (env : Nat → Nat) (t fuel : Nat)
    (h : env t % 256 &&& (1 <<< 7) = 0) :
    waitLoop env t (fuel + 1) = (false, t + 1, busyReadTr) := by
  have h' : env t % 256 &&& 128 = 0 := h
  simp [waitLoop, BusyRead, h', busyReadTr]

theorem WaitCtrlReady_ready (env : Nat → Nat) (t : Nat)
    (h256 : env t < 256) (h : env t &&& (1 <<< 7) = 0) :
    WaitCtrlReady env t = (false, t + 1, busyReadTr) := by
  rw [WaitCtrlReady, show LCD_WAIT_READY_TIMEOUT = 31 + 1 from rfl]
  exact waitLoop_ready env t 31 (by rwa [Nat.mod_eq_of_lt h256])

theorem CmdWrite_ready (env : Nat → Nat)
    (h256 : ∀ i, env i < 256) (h : ∀ i, env i &&& (1 <<< 7) = 0)
    (t cmd : Nat) :
    CmdWrite env t cmd = (t + 1, busyReadTr ++ cmdProg cmd) := by
  simp [CmdWrite, WaitCtrlReady_ready env t (h256 t) (h t), cmdProg]

theorem DataWrite_ready (env : Nat → Nat)
    (h256 : ∀ i, env i < 256) (h : ∀ i, env i &&& (1 <<< 7) = 0)
    (t data : Nat) :
    DataWrite env t data = (t + 1, busyReadTr ++ dataProg data) := by
  simp [DataWrite, WaitCtrlReady_ready env t (h256 t) (h t), dataProg]

theorem waitLoop_timeout (env : Nat → Nat)
    (h256 : ∀ i, env i < 256) (h : ∀ i, env i &&& (1 <<< 7) ≠ 0) :
    ∀ fuel t, waitLoop env t fuel = (true, t + fuel, busyLoopTr fuel) := by
  intro fuel
  induction fuel with
  | zero => intro t; simp [waitLoop, busyLoopTr]
  | succ f ih =>
    intro t
    have hcond : ¬ env t % 256 &&& (1 <<< 7) = 0 := by
      rw [Nat.mod_eq_of_lt (h256 t)]; exact h t
    simp only [waitLoop, BusyRead]
    rw [if_neg hcond]
    simp only [ih (t + 1), busyLoopTr, busyReadTr, Prod.mk.injEq, true_and]
    exact ⟨by omega, trivial⟩

theorem WaitCtrlReady_timeout (env : Nat → Nat)
    (h256 : ∀ i, env i < 256) (h : ∀ i, env i &&& (1 <<< 7) ≠ 0) (t : Nat) :
    WaitCtrlReady env t =
      (true, t + LCD_WAIT_READY_TIMEOUT, busyLoopTr LCD_WAIT_READY_TIMEOUT) :=
  waitLoop_timeout env h256 h LCD_WAIT_READY_TIMEOUT t

theorem countReadBus_busyLoopTr (f : Nat) : countReadBus (busyLoopTr f) = f := by
  induction f with
  | zero => rfl
  | succ n ih =>
    simp only [busyLoopTr, countReadBus] at *
    simp [List.count_append, List.count_cons, busyReadTr, ih]

theorem countWriteBus_busyLoopTr (f : Nat) : countWriteBus (busyLoopTr f) = 0 := by
  induction f with
  | zero => rfl
  | succ n ih =>
    simp only [busyLoopTr, countWriteBus] at *
    simp [List.countP_append, List.countP_cons, busyReadTr, ih]

/-! ### Ready-environment traces of the composite operations -/

theorem writeGlyphData_ready (env : Nat → Nat)
    (h256 : ∀ i, env i < 256) (h : ∀ i, env i &&& (1 <<< 7) = 0) :
    ∀ bs t, (writeGlyphData env t bs).2 = glyphRowTr bs := by
  intro bs
  induction bs with
  | nil => intro t; rfl
  | cons b bs ih =>
    intro t
    simp [writeGlyphData, DataWrite_ready env h256 h, glyphRowTr, ih]

theorem loadGlyphs_ready (env : Nat → Nat)
    (h256 : ∀ i, env i < 256) (h : ∀ i, env i &&& (1 <<< 7) = 0) :
    ∀ fuel ch t, (loadGlyphs env t ch fuel).2 = glyphSlotsTr ch fuel := by
  intro fuel
  induction fuel with
  | zero => intro ch t; rfl
  | succ f ih =>
    intro ch t
    simp [loadGlyphs, CmdWrite_ready env h256 h, glyphSlotsTr,
      writeGlyphData_ready env h256 h, ih]

/-- C5: under a ready controller, the power-on sequence puts on the wire: the
instruction-table-1 commands (function set with IS1, bias set, booster/contrast
high bits, follower control, contrast low bits), strictly before the
base-table function-set command, strictly before the glyph upload, which is
exactly 8 pairs in slot order 0..7, each pair one CGRAM address-select
command 0x40 or (slot shifted left by 3) followed by the 8 row bytes of the slot
as data writes; the display-on, clear and entry-mode commands follow.  Every
glyph slot has exactly 8 row bytes. -/
theorem C5_powerOn_init_sequence (env : Nat → Nat) (t : Nat)
    (h256 : ∀ i, env i < 256) (h : ∀ i, env i &&& (1 <<< 7) = 0) :
    wireWrites false (LCD_PowerOn env t).2.2 =
      [(false, LCD_CMD_FCT_SET_DL ||| LCD_CMD_FCT_SET_N ||| LCD_CMD_FCT_SET_IS1),
       (false, LCD_CMD_IS1_BIAS_SET),
       (false, LCD_CMD_IS1_IBC_BON ||| (l_Contrast >>> 4)),
       (false, LCD_CMD_IS1_FOLLOW_FON ||| LCD_CMD_IS1_FOLLOW_RAB2 |||
               LCD_CMD_IS1_FOLLOW_RAB0),
       (false, LCD_CMD_IS1_CONTR ||| (l_Contrast &&& 0x0F))] ++
      [(false, LCD_CMD_FCT_SET_DL ||| LCD_CMD_FCT_SET_N ||| LCD_CMD_FCT_SET_IS0)] ++
      (List.range 8).flatMap (fun slot =>
        (false, LCD_CMD_IS0_SET_CGRAM ||| (slot <<< 3)) ::
        (l_CustChar.getD slot []).map (fun b => (true, b))) ++
      [(false, LCD_CMD_DISPLAY_ON_D), (false, LCD_CMD_CLEAR_DISPLAY),
       (false, LCD_CMD_ENTRY_MODE_ID)] ∧
    ∀ slot < 8, (l_CustChar.getD slot []).length = 8 := by
  refine ⟨?_, by decide⟩
  simp only [LCD_PowerOn, CmdWrite_ready env h256 h, loadGlyphs_ready env h256 h]
  decide

/-- C5 witness: the power-on wire sequence at the concrete always-ready
environment. -/
theorem C5_powerOn_init_sequence_witness :
    wireWrites false (LCD_PowerOn (fun _ => 0) 0).2.2 =
      [(false, LCD_CMD_FCT_SET_DL ||| LCD_CMD_FCT_SET_N ||| LCD_CMD_FCT_SET_IS1),
       (false, LCD_CMD_IS1_BIAS_SET),
       (false, LCD_CMD_IS1_IBC_BON ||| (l_Contrast >>> 4)),
       (false, LCD_CMD_IS1_FOLLOW_FON ||| LCD_CMD_IS1_FOLLOW_RAB2 |||
               LCD_CMD_IS1_FOLLOW_RAB0),
       (false, LCD_CMD_IS1_CONTR ||| (l_Contrast &&& 0x0F))] ++
      [(false, LCD_CMD_FCT_SET_DL ||| LCD_CMD_FCT_SET_N ||| LCD_CMD_FCT_SET_IS0)] ++
      (List.range 8).flatMap (fun slot =>
        (false, LCD_CMD_IS0_SET_CGRAM ||| (slot <<< 3)) ::
        (l_CustChar.getD slot []).map (fun b => (true, b))) ++
      [(false, LCD_CMD_DISPLAY_ON_D), (false, LCD_CMD_CLEAR_DISPLAY),
       (false, LCD_CMD_ENTRY_MODE_ID)] ∧
    ∀ slot < 8, (l_CustChar.getD slot []).length = 8 :=
  C5_powerOn_init_sequence (fun _ => 0) 0 (fun _ => (by decide : (0 : Nat) < 256))
    (fun _ => (by decide : (0 : Nat) &&& (1 <<< 7) = 0))

/-- C6: LCD_PowerOff first clears the display-on flag, then deasserts the
power-enable pin, and only then drives the remaining signals to a defined low
level, in the order: bus to output mode, RW low, RS low, data bus zeroed,
E low; and it returns the flag value false. -/
theorem C6_powerOff_ordering :
    LCD_PowerOff.2 =
      [Ev.setFlag false, Ev.powerPin false, Ev.dataModeOut, Ev.rw false,
       Ev.rs false, Ev.writeBus 0x00, Ev.e false] ∧
    LCD_PowerOff.1 = false := ⟨rfl, rfl⟩

/-- C3: if every status byte read has the busy bit set, the busy-flag wait
times out after exactly LCD_WAIT_READY_TIMEOUT polls and the subsequent
command or data write is skipped entirely: the trace of CmdWrite and of
DataWrite equals the polling trace of WaitCtrlReady (so nothing happens
beyond the polling reads, and in particular no retry), with zero bus writes
and exactly LCD_WAIT_READY_TIMEOUT bus reads; no error is surfaced since the
C functions return void. -/
theorem C3_timeout_skips_write (env : Nat → Nat) (t cmd data : Nat)
    (h256 : ∀ i, env i < 256) (hbusy : ∀ i, env i &&& (1 <<< 7) ≠ 0) :
    (CmdWrite env t cmd).2 = (WaitCtrlReady env t).2.2 ∧
    countWriteBus (CmdWrite env t cmd).2 = 0 ∧
    countReadBus (CmdWrite env t cmd).2 = LCD_WAIT_READY_TIMEOUT ∧
    (DataWrite env t data).2 = (WaitCtrlReady env t).2.2 ∧
    countWriteBus (DataWrite env t data).2 = 0 ∧
    countReadBus (DataWrite env t data).2 = LCD_WAIT_READY_TIMEOUT := by
  have hw := WaitCtrlReady_timeout env h256 hbusy t
  simp [CmdWrite, DataWrite, hw, countReadBus_busyLoopTr,
    countWriteBus_busyLoopTr]

/-- C3 witness: a controller that always reports busy (status 0x80) makes
CmdWrite and DataWrite perform only the polling reads. -/
theorem C3_timeout_skips_write_witness :
    (CmdWrite (fun _ => 0x80) 0 0x01).2 = (WaitCtrlReady (fun _ => 0x80) 0).2.2 ∧
    countWriteBus (CmdWrite (fun _ => 0x80) 0 0x01).2 = 0 ∧
    countReadBus (CmdWrite (fun _ => 0x80) 0 0x01).2 = LCD_WAIT_READY_TIMEOUT ∧
    (DataWrite (fun _ => 0x80) 0 0x41).2 = (WaitCtrlReady (fun _ => 0x80) 0).2.2 ∧
    countWriteBus (DataWrite (fun _ => 0x80) 0 0x41).2 = 0 ∧
    countReadBus (DataWrite (fun _ => 0x80) 0 0x41).2 = LCD_WAIT_READY_TIMEOUT :=
  C3_timeout_skips_write (fun _ => 0x80) 0 0x01 0x41
    (fun _ => (by decide : (0x80 : Nat) < 256))
    (fun _ => (by decide : ¬ (0x80 : Nat) &&& (1 <<< 7) = 0))

/-! ### E-line lemmas -/

theorem lastE_waitLoop (env : Nat → Nat) :
    ∀ fuel t, lastE false (waitLoop env t fuel).2.2 = false := by
  intro fuel
  induction fuel with
  | zero => intro t; rfl
  | succ f ih =>
    intro t
    simp only [waitLoop, BusyRead]
    split
    · rfl
    · rw [lastE_append]
      exact ih (t + 1)

theorem lastE_waitLoop_succ (env : Nat → Nat) (f t : Nat) (b : Bool) :
    lastE b (waitLoop env t (f + 1)).2.2 = false := by
  simp only [waitLoop, BusyRead]
  split
  · rfl
  · rw [lastE_append]
    exact lastE_waitLoop env f (t + 1)

theorem lastE_WaitCtrlReady (env : Nat → Nat) (t : Nat) (b : Bool) :
    lastE b (WaitCtrlReady env t).2.2 = false := by
  rw [WaitCtrlReady, show LCD_WAIT_READY_TIMEOUT = 31 + 1 from rfl]
  exact lastE_waitLoop_succ env 31 t b

theorem lastE_CmdWrite (env : Nat → Nat) (t cmd : Nat) (b : Bool) :
    lastE b (CmdWrite env t cmd).2 = false := by
  simp only [CmdWrite]
  split
  · exact lastE_WaitCtrlReady env t b
  · rw [lastE_append]
    rfl

theorem lastE_DataWrite (env : Nat → Nat) (t data : Nat) (b : Bool) :
    lastE b (DataWrite env t data).2 = false := by
  simp only [DataWrite]
  split
  · exact lastE_WaitCtrlReady env t b
  · rw [lastE_append]
    rfl

theorem lastE_Putc (env : Nat → Nat) (t : Nat) (flg : Bool) (c : Nat) :
    lastE false (LCD_Putc env t flg c).2 = false := by
  cases flg
  · rfl
  · exact lastE_DataWrite env t c false

theorem lastE_Puts (env : Nat → Nat) (flg : Bool) :
    ∀ chars t, lastE false (LCD_Puts env t flg chars).2 = false := by
  intro chars
  induction chars with
  | nil => intro t; rfl
  | cons c cs ih =>
    intro t
    simp only [LCD_Puts]
    split
    · rfl
    · rw [lastE_append, lastE_Putc]
      exact ih _

theorem lastE_GotoXY (env : Nat → Nat) (t : Nat) (flg : Bool) (x y : Nat) :
    lastE false (LCD_GotoXY env t flg x y).2 = false := by
  simp only [LCD_GotoXY]
  split
  · rw [lastE_append]
    exact lastE_CmdWrite env t _ _
  · rfl

theorem lastE_WriteLine (env : Nat → Nat) (t : Nat) (flg : Bool)
    (lineNum : Int) (buf : List Nat) :
    lastE false (LCD_WriteLine env t flg lineNum buf).2.2 = false := by
  simp only [LCD_WriteLine]
  split
  · rfl
  · rw [lastE_append, lastE_GotoXY]
    exact lastE_Puts env flg _ _

theorem lastE_vPrintf (env : Nat → Nat) (t : Nat) (flg : Bool)
    (lineNum : Int) (frmt formatted : List Nat) :
    lastE false (LCD_vPrintf env t flg lineNum frmt formatted).2.2 = false := by
  simp only [LCD_vPrintf]
  split
  · split
    · rfl
    · exact lastE_WriteLine env t _ lineNum formatted
  · rfl

theorem lastE_writeGlyphData (env : Nat → Nat) :
    ∀ bs t, lastE false (writeGlyphData env t bs).2 = false := by
  intro bs
  induction bs with
  | nil => intro t; rfl
  | cons b bs ih =>
    intro t
    simp only [writeGlyphData]
    rw [lastE_append, lastE_DataWrite]
    exact ih _

theorem lastE_loadGlyphs (env : Nat → Nat) :
    ∀ fuel ch t, lastE false (loadGlyphs env t ch fuel).2 = false := by
  intro fuel
  induction fuel with
  | zero => intro ch t; rfl
  | succ f ih =>
    intro ch t
    simp only [loadGlyphs]
    rw [lastE_append, lastE_append, lastE_CmdWrite, lastE_writeGlyphData]
    exact ih _ _

theorem lastE_PowerOn (env : Nat → Nat) (t : Nat) :
    lastE false (LCD_PowerOn env t).2.2 = false := by
  simp only [LCD_PowerOn]
  simp only [lastE_append]
  simp only [lastE, lastE_CmdWrite, lastE_loadGlyphs]

/-- C9: every operation that asserts the enable line E deasserts it before
returning — BusyRead, CmdWrite and DataWrite leave E low from any starting
level (also on the timeout path, which ends with the deassert of the last poll) —
and every exposed driver operation, power-off and power-on included,
preserves the E-low invariant. -/
theorem C9_enable_line_returns_low (env : Nat → Nat) (t cmd data c x y : Nat)
    (flg b : Bool) (lineNum : Int) (chars buf frmt formatted : List Nat) :
    lastE b (BusyRead env t).2.2 = false ∧
    lastE b (CmdWrite env t cmd).2 = false ∧
    lastE b (DataWrite env t data).2 = false ∧
    lastE b LCD_PowerOff.2 = false ∧
    lastE false (LCD_PowerOn env t).2.2 = false ∧
    lastE false (LCD_Putc env t flg c).2 = false ∧
    lastE false (LCD_Puts env t flg chars).2 = false ∧
    lastE false (LCD_GotoXY env t flg x y).2 = false ∧
    lastE false (LCD_WriteLine env t flg lineNum buf).2.2 = false ∧
    lastE false (LCD_vPrintf env t flg lineNum frmt formatted).2.2 = false :=
  ⟨rfl, lastE_CmdWrite env t cmd b, lastE_DataWrite env t data b, rfl,
   lastE_PowerOn env t, lastE_Putc env t flg c, lastE_Puts env flg chars t,
   lastE_GotoXY env t flg x y, lastE_WriteLine env t flg lineNum buf,
   lastE_vPrintf env t flg lineNum frmt formatted⟩

theorem Puts_off (env : Nat → Nat) :
    ∀ chars t, LCD_Puts env t false chars = (t, []) := by
  intro chars
  induction chars with
  | nil => intro t; rfl
  | cons c cs ih =>
    intro t
    simp only [LCD_Puts, LCD_Putc]
    split
    · rfl
    · simp [ih t]

/-- C4: with the display-on flag false, LCD_Putc, LCD_Puts, LCD_GotoXY and
the formatted writes LCD_vPrintf / LCD_Printf perform no bus transfer and no
control-line change at all: their traces are empty (and the formatted writes
return before formatting, leaving the read counter unchanged). -/
theorem C4_off_operations_are_noops (env : Nat → Nat) (t c x y : Nat)
    (lineNum : Int) (str frmt formatted : List Nat) :
    (LCD_Putc env t false c).2 = [] ∧
    (LCD_Puts env t false str).2 = [] ∧
    (LCD_GotoXY env t false x y).2 = [] ∧
    LCD_vPrintf env t false lineNum frmt formatted = (none, t, []) ∧
    LCD_Printf env t false lineNum frmt formatted = (none, t, []) :=
  ⟨rfl, by rw [Puts_off], rfl, rfl, rfl⟩

/-- C10: LCD_vPrintf returns before formatting or writing anything (modelled
by the `none` result, i.e. the vsprintf call is never reached) exactly when
the display is off or the format string itself is longer than
sizeof(buffer) - 10 = 30 bytes; the guard is independent of the formatted
output `formatted`, which is universally quantified here. -/
theorem C10_vPrintf_early_return_iff (env : Nat → Nat) (t : Nat) (flg : Bool)
    (lineNum : Int) (frmt formatted : List Nat) :
    (LCD_vPrintf env t flg lineNum frmt formatted).1 = none ↔
      (flg = false ∨ 30 < strlen frmt) := by
  cases flg
  · simp [LCD_vPrintf]
  · simp only [LCD_vPrintf, if_true]
    split
    · simpa using ‹40 - 10 < strlen frmt›
    · simp only [Bool.true_eq_false, false_or]
      constructor
      · intro hc
        exact absurd hc (by simp)
      · intro h30
        exact absurd h30 (by simpa using ‹¬ 40 - 10 < strlen frmt›)

theorem wireWrites_cmdReadyTr (r : Bool) (v : Nat) :
    wireWrites r (busyReadTr ++ cmdProg v) = [(false, v % 256)] := rfl

theorem wireWrites_dataReadyTr (r : Bool) (v : Nat) :
    wireWrites r (busyReadTr ++ dataProg v) = [(true, v % 256)] := rfl

/-- C7: for in-range coordinates with the display on and a ready controller,
LCD_GotoXY puts exactly one write on the wire, a command byte equal to
0x80 or-ed with the DDRAM address y*0x40 + x. -/
theorem C7_gotoXY_sets_address (env : Nat → Nat) (t x y : Nat)
    (h256 : ∀ i, env i < 256) (h : ∀ i, env i &&& (1 <<< 7) = 0)
    (hx : x < LCD_DIMENSION_X) (hy : y < LCD_DIMENSION_Y) :
    wireWrites false (LCD_GotoXY env t true x y).2 =
      [(false, LCD_CMD_SET_DDRAM_ADDR ||| (y * 0x40 + x))] := by
  have hx' : x < 16 := hx
  have hy' : y < 2 := hy
  have hxm : x % 256 = x := Nat.mod_eq_of_lt (by omega)
  have hym : y % 256 = y := Nat.mod_eq_of_lt (by omega)
  have haddr : (y * 0x40 + x) % 256 = y * 0x40 + x :=
    Nat.mod_eq_of_lt (by omega)
  have hcmd : LCD_CMD_SET_DDRAM_ADDR ||| (y * 0x40 + x) < 256 := by
    have h1 : LCD_CMD_SET_DDRAM_ADDR < 2 ^ 8 := by norm_num [LCD_CMD_SET_DDRAM_ADDR]
    have h2 : y * 0x40 + x < 2 ^ 8 := by omega
    simpa using Nat.or_lt_two_pow h1 h2
  simp only [LCD_GotoXY, if_true, hxm, hym, haddr,
    CmdWrite_ready env h256 h]
  rw [if_pos ⟨hx, hy⟩]
  simp only [List.nil_append, wireWrites_cmdReadyTr, Nat.mod_eq_of_lt hcmd]

/-- C7 witness: moving to column 3, row 1 issues the single command
0x80 or (0x40 + 3) = 0xC3. -/
theorem C7_gotoXY_sets_address_witness :
    wireWrites false (LCD_GotoXY (fun _ => 0) 0 true 3 1).2 =
      [(false, LCD_CMD_SET_DDRAM_ADDR ||| (1 * 0x40 + 3))] :=
  C7_gotoXY_sets_address (fun _ => 0) 0 3 1
    (fun _ => (by decide : (0 : Nat) < 256))
    (fun _ => (by decide : (0 : Nat) &&& (1 <<< 7) = 0))
    (by decide) (by decide)

/-- C1 counterexample: with the display on and a ready controller, the
out-of-range call LCD_GotoXY(16, 0) signals the contract violation but
nevertheless performs one bus write — the claim that no set-address command
is issued on out-of-range coordinates is false on the code, because the
EFM_ASSERT in LCD_GotoXY is not followed by a return. -/
theorem C1_gotoXY_counterexample :
    Ev.assertFail ∈ (LCD_GotoXY (fun _ => 0) 0 true 16 0).2 ∧
    countWriteBus (LCD_GotoXY (fun _ => 0) 0 true 16 0).2 = 1 := by
  decide

/-- C1 amended: for every out-of-range coordinate pair (as uint8_t values)
with the display on and a ready controller, LCD_GotoXY signals the contract
violation and still issues the set-address command, whose byte is 0x80 or-ed
with the wrapped address (y*0x40 + x) mod 256. -/
theorem C1_gotoXY_out_of_range (env : Nat → Nat) (t x y : Nat)
    (h256 : ∀ i, env i < 256) (h : ∀ i, env i &&& (1 <<< 7) = 0)
    (hx8 : x < 256) (hy8 : y < 256)
    (hout : LCD_DIMENSION_X ≤ x ∨ LCD_DIMENSION_Y ≤ y) :
    Ev.assertFail ∈ (LCD_GotoXY env t true x y).2 ∧
    wireWrites false (LCD_GotoXY env t true x y).2 =
      [(false, LCD_CMD_SET_DDRAM_ADDR ||| ((y * 0x40 + x) % 256))] := by
  have hxm : x % 256 = x := Nat.mod_eq_of_lt hx8
  have hym : y % 256 = y := Nat.mod_eq_of_lt hy8
  have hcmd : LCD_CMD_SET_DDRAM_ADDR ||| ((y * 0x40 + x) % 256) < 256 := by
    have h1 : LCD_CMD_SET_DDRAM_ADDR < 2 ^ 8 := by norm_num [LCD_CMD_SET_DDRAM_ADDR]
    have h2 : (y * 0x40 + x) % 256 < 2 ^ 8 := by
      have := Nat.mod_lt (y * 0x40 + x) (show 0 < 256 by decide)
      simpa using this
    simpa using Nat.or_lt_two_pow h1 h2
  have hnot : ¬ (x < LCD_DIMENSION_X ∧ y < LCD_DIMENSION_Y) := by
    rcases hout with h1 | h1
    · exact fun hc => absurd hc.1 (by omega)
    · exact fun hc => absurd hc.2 (by omega)
  simp only [LCD_GotoXY, if_true, hxm, hym, CmdWrite_ready env h256 h]
  rw [if_neg hnot]
  constructor
  · exact List.mem_append_left _ (List.mem_singleton.mpr rfl)
  · show wireWrites false (Ev.assertFail :: (busyReadTr ++ cmdProg _)) = _
    rw [show ∀ tr, wireWrites false (Ev.assertFail :: tr) = wireWrites false tr
          from fun tr => rfl]
    rw [wireWrites_cmdReadyTr, Nat.mod_eq_of_lt hcmd]

/-- C1 amended witness: LCD_GotoXY(16, 0) with display on and ready
controller signals the violation and issues command 0x80 or 16 = 0x90. -/
theorem C1_gotoXY_out_of_range_witness :
    Ev.assertFail ∈ (LCD_GotoXY (fun _ => 0) 0 true 16 0).2 ∧
    wireWrites false (LCD_GotoXY (fun _ => 0) 0 true 16 0).2 =
      [(false, LCD_CMD_SET_DDRAM_ADDR ||| ((0 * 0x40 + 16) % 256))] :=
  C1_gotoXY_out_of_range (fun _ => 0) 0 16 0
    (fun _ => (by decide : (0 : Nat) < 256))
    (fun _ => (by decide : (0 : Nat) &&& (1 <<< 7) = 0))
    (by decide) (by decide) (Or.inl (by decide))

theorem padFrom_eq : ∀ (k : Nat) (buf : List Nat) (len : Nat),
    len + k ≤ buf.length →
    padFrom buf len k =
      buf.take len ++ List.replicate k 32 ++ buf.drop (len + k) := by
  intro k
  induction k with
  | zero =>
    intro buf len h
    simp [padFrom]
  | succ k ih =>
    intro buf len h
    have hlen : len < buf.length := by omega
    rw [padFrom, ih (buf.set len 32) (len + 1) (by rw [List.length_set]; omega)]
    rw [List.set_eq_take_cons_drop 32 hlen]
    have hA : (buf.take len).length = len := by
      rw [List.length_take]; omega
    have h1 : (buf.take len).take (len + 1) = buf.take len :=
      List.take_of_length_le (by rw [hA]; omega)
    have h2 : (buf.take len).drop (len + 1 + k) = ([] : List Nat) :=
      List.drop_of_length_le (by rw [hA]; omega)
    conv_lhs => rw [List.take_append_eq_append_take,
      List.drop_append_eq_append_drop, h1, h2, hA]
    rw [show len + 1 - len = 1 from by omega,
        show len + 1 + k - len = k + 1 from by omega]
    simp only [List.take_succ_cons, List.take_zero, List.drop_succ_cons,
      List.drop_drop, List.nil_append, List.replicate_succ]
    rw [show len + 1 + k = len + (k + 1) from by omega]
    simp [List.append_assoc]

theorem strChars_eq_take : ∀ buf : List Nat,
    strChars buf = buf.take (strlen buf) := by
  intro buf
  induction buf with
  | nil => rfl
  | cons c cs ih =>
    by_cases hc : (c != 0) = true
    · simp only [strChars, strlen, List.takeWhile_cons, hc, if_true,
        List.length_cons, List.take_succ_cons]
      exact congrArg (List.cons c) ih
    · simp only [strChars, strlen, List.takeWhile_cons, hc]
      simp

theorem strlen_le_length : ∀ buf : List Nat, strlen buf ≤ buf.length := by
  intro buf
  induction buf with
  | nil => exact Nat.le_refl 0
  | cons c cs ih =>
    by_cases hc : (c != 0) = true
    · simp only [strlen, List.takeWhile_cons, hc, if_true, List.length_cons]
      exact Nat.succ_le_succ ih
    · simp only [strlen, List.takeWhile_cons, hc]
      simp

/-- The buffer mutation of LCD_WriteLine, characterized: for a buffer of
capacity at least w + 1 bytes, the result is the first w characters of the
stored string, space-padded to exactly w, then the terminator, then the
untouched tail. -/
theorem writeLineBuf_spec (w : Nat) (buf : List Nat) (h : w + 1 ≤ buf.length) :
    writeLineBuf w buf =
      (strChars buf).take w ++ List.replicate (w - strlen buf) 32 ++
      EOS :: buf.drop (w + 1) := by
  have hlen_le := strlen_le_length buf
  rcases Nat.lt_or_ge w (strlen buf) with hc | hc
  · -- string longer than the width: truncation path
    simp only [writeLineBuf]
    rw [if_pos hc, show w - strlen buf = 0 from by omega]
    simp only [padFrom]
    rw [List.set_set]
    rw [List.set_eq_take_cons_drop EOS (by omega : w < buf.length)]
    rw [strChars_eq_take, List.take_take, Nat.min_eq_left (by omega)]
    simp
  · -- string not longer than the width: padding path
    simp only [writeLineBuf]
    rw [if_neg (by omega)]
    rw [padFrom_eq (w - strlen buf) buf (strlen buf) (by omega),
        show strlen buf + (w - strlen buf) = w from by omega]
    have hP : (buf.take (strlen buf) ++
        List.replicate (w - strlen buf) 32).length = w := by
      rw [List.length_append, List.length_take, List.length_replicate]
      omega
    rw [List.set_eq_take_cons_drop EOS
      (by rw [List.length_append, hP, List.length_drop]; omega)]
    rw [List.take_append_eq_append_take, List.take_of_length_le (le_of_eq hP),
        hP, Nat.sub_self, List.take_zero, List.append_nil]
    rw [List.drop_append_eq_append_drop,
        List.drop_of_length_le (by rw [hP]; omega),
        hP, show w + 1 - w = 1 from by omega, List.nil_append,
        List.drop_drop]
    rw [strChars_eq_take, List.take_take, Nat.min_eq_right (by omega)]

/-- C8: for a valid line number, LCD_WriteLine mutates the callers buffer
independently of the display-on flag (it performs no on/off check itself):
on return the buffer holds the truncated or space-padded text in its first
LCD_DIMENSION_X bytes, the terminator at index LCD_DIMENSION_X (so capacity
of at least LCD_DIMENSION_X + 1 bytes is used), and the resulting buffer is
the same whether the display is on or off. -/
theorem C8_writeLine_mutates_buffer (env : Nat → Nat) (t : Nat) (flg : Bool)
    (lineNum : Int) (buf : List Nat)
    (hline : lineNum = 1 ∨ lineNum = 2)
    (hcap : LCD_DIMENSION_X + 1 ≤ buf.length) :
    (LCD_WriteLine env t flg lineNum buf).1 =
      (strChars buf).take LCD_DIMENSION_X ++
      List.replicate (LCD_DIMENSION_X - strlen buf) 32 ++
      EOS :: buf.drop (LCD_DIMENSION_X + 1) ∧
    (LCD_WriteLine env t flg lineNum buf).1[LCD_DIMENSION_X]? = some EOS ∧
    (LCD_WriteLine env t flg lineNum buf).1 =
      (LCD_WriteLine env t (!flg) lineNum buf).1 := by
  have hv : ¬ (lineNum < 1 ∨ 2 < lineNum) := by
    rcases hline with h | h <;> simp [h]
  have hspec := writeLineBuf_spec LCD_DIMENSION_X buf hcap
  have hPlen : ((strChars buf).take LCD_DIMENSION_X ++
      List.replicate (LCD_DIMENSION_X - strlen buf) 32).length =
      LCD_DIMENSION_X := by
    rw [List.length_append, List.length_take, List.length_replicate]
    have hsc : (strChars buf).length = strlen buf := rfl
    rw [hsc]
    omega
  refine ⟨?_, ?_, ?_⟩
  · simp only [LCD_WriteLine, if_neg hv]
    exact hspec
  · simp only [LCD_WriteLine, if_neg hv]
    rw [hspec, List.getElem?_append_right (le_of_eq hPlen),
        hPlen, Nat.sub_self]
    simp
  · simp only [LCD_WriteLine, if_neg hv]

/-- C8 witness: writing the 5-byte string Hello into a 17-byte buffer on
line 1 with the display off still pads it to 16 characters plus terminator. -/
theorem C8_writeLine_mutates_buffer_witness :
    (LCD_WriteLine (fun _ => 0) 0 false 1
        [72, 101, 108, 108, 111, 0, 0, 0, 0, 0, 0, 0, 0, 0, 0, 0, 0]).1 =
      (strChars [72, 101, 108, 108, 111, 0, 0, 0, 0, 0, 0, 0, 0, 0, 0, 0, 0]).take
          LCD_DIMENSION_X ++
      List.replicate (LCD_DIMENSION_X -
          strlen [72, 101, 108, 108, 111, 0, 0, 0, 0, 0, 0, 0, 0, 0, 0, 0, 0]) 32 ++
      EOS :: List.drop (LCD_DIMENSION_X + 1)
          [72, 101, 108, 108, 111, 0, 0, 0, 0, 0, 0, 0, 0, 0, 0, 0, 0] ∧
    (LCD_WriteLine (fun _ => 0) 0 false 1
        [72, 101, 108, 108, 111, 0, 0, 0, 0, 0, 0, 0, 0, 0, 0, 0, 0]).1[LCD_DIMENSION_X]? =
      some EOS ∧
    (LCD_WriteLine (fun _ => 0) 0 false 1
        [72, 101, 108, 108, 111, 0, 0, 0, 0, 0, 0, 0, 0, 0, 0, 0, 0]).1 =
    (LCD_WriteLine (fun _ => 0) 0 (!false) 1
        [72, 101, 108, 108, 111, 0, 0, 0, 0, 0, 0, 0, 0, 0, 0, 0, 0]).1 :=
  C8_writeLine_mutates_buffer (fun _ => 0) 0 false 1
    [72, 101, 108, 108, 111, 0, 0, 0, 0, 0, 0, 0, 0, 0, 0, 0, 0]
    (Or.inl rfl) (by decide)

theorem wireWrites_busyReadTr (r : Bool) : wireWrites r busyReadTr = [] := rfl

theorem rsAfter_busyReadTr (r : Bool) : rsAfter r busyReadTr = false := rfl

theorem wireWrites_cmdProg (v : Nat) :
    wireWrites false (cmdProg v) = [(false, v % 256)] := rfl

theorem wireWrites_dataProg (v : Nat) :
    wireWrites false (dataProg v) = [(true, v % 256)] := rfl

theorem rsAfter_cmdReadyTr (r : Bool) (v : Nat) :
    rsAfter r (busyReadTr ++ cmdProg v) = false := rfl

theorem rsAfter_dataReadyTr (r : Bool) (v : Nat) :
    rsAfter r (busyReadTr ++ dataProg v) = true := rfl

theorem Puts_ready (env : Nat → Nat)
    (h256 : ∀ i, env i < 256) (h : ∀ i, env i &&& (1 <<< 7) = 0) :
    ∀ chars t r,
      wireWrites r (LCD_Puts env t true chars).2 =
        (chars.takeWhile (fun c => c != 0)).map (fun c => (true, c % 256)) := by
  intro chars
  induction chars with
  | nil => intro t r; rfl
  | cons c cs ih =>
    intro t r
    simp only [LCD_Puts, LCD_Putc, if_true]
    split
    · next hc =>
      rw [hc]
      rfl
    · next hc =>
      have hc0 : (c != 0) = true := by
        simp only [EOS] at hc
        simpa using hc
      simp only [DataWrite_ready env h256 h, wireWrites_append,
        wireWrites_busyReadTr, rsAfter_busyReadTr, wireWrites_dataProg, ih]
      simp [List.takeWhile_cons, hc0]

theorem takeWhile_append_zero :
    ∀ (P R : List Nat), (∀ c ∈ P, c ≠ 0) →
      (P ++ EOS :: R).takeWhile (fun c => c != 0) = P := by
  intro P
  induction P with
  | nil =>
    intro R hP
    simp [List.takeWhile_cons, EOS]
  | cons p ps ih =>
    intro R hP
    have hp : (p != 0) = true := by
      simpa using hP p (List.mem_cons_self p ps)
    simp only [List.cons_append, List.takeWhile_cons, hp, if_true]
    rw [ih R (fun c hcmem => hP c (List.mem_cons_of_mem p hcmem))]

theorem GotoXY_ready_trace (env : Nat → Nat)
    (h256 : ∀ i, env i < 256) (h : ∀ i, env i &&& (1 <<< 7) = 0)
    (t x y : Nat) (hx : x < LCD_DIMENSION_X) (hy : y < LCD_DIMENSION_Y) :
    (LCD_GotoXY env t true x y).2 =
      busyReadTr ++ cmdProg (LCD_CMD_SET_DDRAM_ADDR ||| (y * 0x40 + x)) := by
  have hX : LCD_DIMENSION_X = 16 := rfl
  have hY : LCD_DIMENSION_Y = 2 := rfl
  have hxm : x % 256 = x := Nat.mod_eq_of_lt (by omega)
  have hym : y % 256 = y := Nat.mod_eq_of_lt (by omega)
  have haddr : (y * 0x40 + x) % 256 = y * 0x40 + x :=
    Nat.mod_eq_of_lt (by omega)
  simp only [LCD_GotoXY, if_true, hxm, hym, haddr, CmdWrite_ready env h256 h]
  rw [if_pos ⟨hx, hy⟩]
  simp

theorem filterMap_true_pairs (P : List Nat) :
    List.filterMap (fun p => if p.1 then some p.2 else none)
      (P.map (fun c => ((true : Bool), c % 256))) =
    P.map (fun c => c % 256) := by
  induction P with
  | nil => rfl
  | cons c cs ih => simp_all

/-- C2: for a valid line number, with the display on, a ready controller and
a buffer of capacity LCD_DIMENSION_X + 1 holding byte values, LCD_WriteLine
puts exactly LCD_DIMENSION_X data bytes on the wire: the stored string
truncated to the display width, right-padded with spaces (byte 32) to
exactly the display width. -/
theorem C2_writeLine_transfers_width (env : Nat → Nat) (t : Nat)
    (lineNum : Int) (buf : List Nat)
    (h256 : ∀ i, env i < 256) (h : ∀ i, env i &&& (1 <<< 7) = 0)
    (hline : lineNum = 1 ∨ lineNum = 2)
    (hcap : LCD_DIMENSION_X + 1 ≤ buf.length)
    (hbytes : ∀ c ∈ buf, c < 256) :
    dataBytes (LCD_WriteLine env t true lineNum buf).2.2 =
      (strChars buf).take LCD_DIMENSION_X ++
      List.replicate (LCD_DIMENSION_X - strlen buf) 32 ∧
    (dataBytes (LCD_WriteLine env t true lineNum buf).2.2).length =
      LCD_DIMENSION_X := by
  have hX : LCD_DIMENSION_X = 16 := rfl
  have hsclen : (strChars buf).length = strlen buf := rfl
  have hv : ¬ (lineNum < 1 ∨ 2 < lineNum) := by
    rcases hline with h1 | h1 <;> simp [h1]
  have hPne : ∀ c ∈ (strChars buf).take LCD_DIMENSION_X ++
      List.replicate (LCD_DIMENSION_X - strlen buf) 32, c ≠ 0 := by
    intro c hcP
    rcases List.mem_append.mp hcP with hcm | hcm
    · have hmem := List.take_subset _ _ hcm
      have := List.mem_takeWhile_imp hmem
      simpa using this
    · have := List.eq_of_mem_replicate hcm
      omega
  have hPlt : ∀ c ∈ (strChars buf).take LCD_DIMENSION_X ++
      List.replicate (LCD_DIMENSION_X - strlen buf) 32, c < 256 := by
    intro c hcP
    rcases List.mem_append.mp hcP with hcm | hcm
    · exact hbytes c (List.takeWhile_subset _ (List.take_subset _ _ hcm))
    · have := List.eq_of_mem_replicate hcm
      omega
  have htw : (writeLineBuf LCD_DIMENSION_X buf).takeWhile (fun c => c != 0) =
      (strChars buf).take LCD_DIMENSION_X ++
      List.replicate (LCD_DIMENSION_X - strlen buf) 32 := by
    rw [writeLineBuf_spec LCD_DIMENSION_X buf hcap]
    exact takeWhile_append_zero _ _ hPne
  have hmap : ((strChars buf).take LCD_DIMENSION_X ++
      List.replicate (LCD_DIMENSION_X - strlen buf) 32).map (fun c => c % 256) =
      (strChars buf).take LCD_DIMENSION_X ++
      List.replicate (LCD_DIMENSION_X - strlen buf) 32 := by
    rw [List.map_congr_left (fun a ha => Nat.mod_eq_of_lt (hPlt a ha))]
    exact List.map_id _
  have hfirst : dataBytes (LCD_WriteLine env t true lineNum buf).2.2 =
      (strChars buf).take LCD_DIMENSION_X ++
      List.replicate (LCD_DIMENSION_X - strlen buf) 32 := by
    simp only [LCD_WriteLine, if_neg hv]
    rcases hline with h1 | h1 <;> subst h1
    · simp only [show ((1 : Int) - 1).toNat = 0 from by decide]
      rw [dataBytes, GotoXY_ready_trace env h256 h _ 0 0 (by decide) (by decide),
        wireWrites_append, wireWrites_cmdReadyTr, rsAfter_cmdReadyTr,
        Puts_ready env h256 h _ _ false, htw]
      rw [List.filterMap_append]
      rw [show List.filterMap (fun p => if p.1 then some p.2 else none)
            [((false : Bool), (LCD_CMD_SET_DDRAM_ADDR ||| (0 * 0x40 + 0)) % 256)] =
          ([] : List Nat) from rfl]
      rw [List.nil_append, filterMap_true_pairs, hmap]
    · simp only [show ((2 : Int) - 1).toNat = 1 from by decide]
      rw [dataBytes, GotoXY_ready_trace env h256 h _ 0 1 (by decide) (by decide),
        wireWrites_append, wireWrites_cmdReadyTr, rsAfter_cmdReadyTr,
        Puts_ready env h256 h _ _ false, htw]
      rw [List.filterMap_append]
      rw [show List.filterMap (fun p => if p.1 then some p.2 else none)
            [((false : Bool), (LCD_CMD_SET_DDRAM_ADDR ||| (1 * 0x40 + 0)) % 256)] =
          ([] : List Nat) from rfl]
      rw [List.nil_append, filterMap_true_pairs, hmap]
  refine ⟨hfirst, ?_⟩
  rw [hfirst, List.length_append, List.length_take, List.length_replicate,
    hsclen]
  omega

/-- C2 witness: writing Hello (5 bytes) to line 1 of the 16-column display
transfers the 5 letters followed by 11 spaces, 16 data bytes in total. -/
theorem C2_writeLine_transfers_width_witness :
    dataBytes (LCD_WriteLine (fun _ => 0) 0 true 1
        [72, 101, 108, 108, 111, 0, 0, 0, 0, 0, 0, 0, 0, 0, 0, 0, 0]).2.2 =
      (strChars [72, 101, 108, 108, 111, 0, 0, 0, 0, 0, 0, 0, 0, 0, 0, 0, 0]).take
          LCD_DIMENSION_X ++
      List.replicate (LCD_DIMENSION_X -
          strlen [72, 101, 108, 108, 111, 0, 0, 0, 0, 0, 0, 0, 0, 0, 0, 0, 0]) 32 ∧
    (dataBytes (LCD_WriteLine (fun _ => 0) 0 true 1
        [72, 101, 108, 108, 111, 0, 0, 0, 0, 0, 0, 0, 0, 0, 0, 0, 0]).2.2).length =
      LCD_DIMENSION_X :=
  C2_writeLine_transfers_width (fun _ => 0) 0 1
    [72, 101, 108, 108, 111, 0, 0, 0, 0, 0, 0, 0, 0, 0, 0, 0, 0]
    (fun _ => (by decide : (0 : Nat) < 256))
    (fun _ => (by decide : (0 : Nat) &&& (1 <<< 7) = 0))
    (Or.inl rfl) (by decide) (by decide)
